import Mathlib

/-!
Verification development for the `discord-unifi` bridge repository.

The repository relays UniFi Protect camera events to a Discord webhook.
This file gives a shallow embedding of the pure data-processing core:

* `Bridge`    — the webhook service in `src/services/discord.js`
                (nested-alarm payloads, five event keywords);
* `BridgeFlat`— the flat-payload variant of the same service
                (destructures `{eventType, cameraName, timestamp, ...}`);
* `BridgeFR`  — the face-recognition variant of the service
                (adds `face_known`/`face_unknown` keywords, person-info and
                event-id extraction, animated-thumbnail fetch);
* `Cli`       — the standalone single-event processor
                (`process-single-event.mjs`): cookie-based session
                authentication, thumbnail download, Discord upload;
* `Validator` — `src/utils/validator.js` (`sanitizeData`).

JavaScript conventions used throughout the embedding:

* an optional object field is an `Option`;
* JS truthiness of a string-valued field (`if (x)`, `x || d`) is modelled by
  `truthyStr`: both a missing field and the empty string count as falsy;
* JS exceptions of the translated functions are modelled with `Except Unit`;
* network and file-system effects are passed in as explicit oracle
  environments recording which outbound calls are made.
-/

/-- First index (if any) at which `sep` occurs as a contiguous sublist of the
second argument.  This is the model of JS `String.prototype.indexOf`, and the
building block for `includes` and `split`. -/
def firstOccurFrom (sep : List Char) : List Char → Option Nat
  | [] => if sep.isPrefixOf ([] : List Char) then some 0 else none
  | c :: cs =>
    if sep.isPrefixOf (c :: cs) then some 0
    else (firstOccurFrom sep cs).map (· + 1)

/-- Models JS `s.includes(pat)` (for the non-empty patterns used in the code). -/
def strIncludes (s pat : String) : Bool :=
  (firstOccurFrom pat.data s.data).isSome

/-- Models JS `s.toLowerCase()` (ASCII case folding suffices for the keyword
comparisons performed by the code). -/
def lowerStr (s : String) : String :=
  ⟨s.data.map Char.toLower⟩

/-- JS truthiness of an optional string field: `undefined` and `""` are falsy.
`truthyStr x = some s` exactly when the JS value is a truthy string `s`. -/
def truthyStr : Option String → Option String
  | none => none
  | some s => if s = "" then none else some s

/-- Models JS `Array.prototype.join(sep)` on a list of strings. -/
def joinSep (sep : String) : List String → String
  | [] => ""
  | [x] => x
  | x :: y :: xs => x ++ sep ++ joinSep sep (y :: xs)

/-- A raw JS `timestamp` value: a number (epoch milliseconds), a string, or
absent (`undefined`). -/
inductive TsVal where
  | num (n : Int)
  | str (s : String)
  | undef
  deriving DecidableEq

/-- JS truthiness of a `timestamp` value (`0`, `""` and `undefined` are falsy). -/
def tsTruthy : TsVal → Bool
  | .num n => n ≠ 0
  | .str s => s ≠ ""
  | .undef => false

/-- Models `new Date(ms).toISOString()`.  No claim depends on the exact
ISO-8601 digits, only on the fact that the rendering is a deterministic
function of the millisecond value, so the rendering itself is kept abstractly
as an injective textual encoding of the integer. -/
def isoOfMillis (n : Int) : String :=
  "iso:" ++ toString n

/-- `condition.condition` object of a nested-alarm payload. -/
structure CondInner where
  source : Option String
  type : Option String
  deriving DecidableEq

/-- One entry of `alarm.conditions`. -/
structure Condition where
  condition : Option CondInner
  deriving DecidableEq

/-- `trigger.group` object. -/
structure TriggerGroup where
  name : Option String
  deriving DecidableEq

/-- One entry of `alarm.triggers`. -/
structure Trigger where
  device : Option String
  key : Option String
  eventId : Option String
  value : Option String
  group : Option TriggerGroup
  timestamp : Option String
  deriving DecidableEq

/-- The nested `alarm` object of a UniFi Protect webhook payload. -/
structure Alarm where
  name : Option String
  conditions : Option (List Condition)
  triggers : Option (List Trigger)
  eventLocalLink : Option String
  eventPath : Option String
  deriving DecidableEq

/-- A raw webhook payload.  The flat shape uses `eventType`, `cameraName`,
`timestamp`, `description`, `location`; the nested shapes use `alarm` and
`timestamp`.  All fields the two service variants destructure are present as
options, mirroring the loosely-typed JS object. -/
structure EventData where
  alarm : Option Alarm
  timestamp : TsVal
  eventType : Option String
  cameraName : Option String
  description : Option String
  location : Option String
  deriving DecidableEq

/-- One Discord embed field `{name, value, inline}`. -/
structure EmbedField where
  name : String
  value : String
  inline : Bool
  deriving DecidableEq

/-- A Discord embed.  `timestamp` is the raw JS value placed in the payload
(the flat variant can place a number there, the nested variants always place
a string). -/
structure Embed where
  title : String
  description : String
  color : Nat
  timestamp : TsVal
  fields : List EmbedField
  deriving DecidableEq

/-- A Discord message payload `{content, embeds}`. -/
structure Message where
  content : String
  embeds : List Embed
  deriving DecidableEq

/-- An entry of the `getEventConfig` lookup table. -/
structure EventConfig where
  emoji : String
  title : String
  color : Nat
  deriving DecidableEq

/-- Person record built by `extractPersonInfo` in the face-recognition
variant. -/
structure PersonInfo where
  name : Option String
  eventId : Option String
  eventLocalLink : Option String
  eventPath : Option String
  timestamp : Option String
  deriving DecidableEq

/-- JS guard `condition.condition && condition.condition.source`: the truthy
source string of a condition entry, if any. -/
def condSource (c : Condition) : Option String :=
  match c.condition with
  | some ci => truthyStr ci.source
  | none => none

/-- One fragment of the conditions summary, from the map in
`transformToDiscordFormat`:
`cond.condition ? `${source || "unknown"} (${type || "unknown"})` : "unknown"`.
This code is identical in the basic and face-recognition service variants. -/
def condFragment (c : Condition) : String :=
  match c.condition with
  | some ci =>
      (match truthyStr ci.source with | some s => s | none => "unknown")
        ++ " ("
        ++ (match truthyStr ci.type with | some t => t | none => "unknown")
        ++ ")"
  | none => "unknown"

/-- The conditions summary: the mapped fragments joined with `", "`. -/
def conditionsSummary (conds : List Condition) : String :=
  joinSep ", " (conds.map condFragment)

/-- The optional `Conditions` embed field, guarded in the source by
`if (alarm.conditions && alarm.conditions.length > 0)`. -/
def conditionsFieldOf (a : Alarm) : Option EmbedField :=
  match a.conditions with
  | some conds =>
      if conds.length > 0 then
        some ⟨"Conditions", conditionsSummary conds, false⟩
      else none
  | none => none

/-- Fragments collected by the `extractDeviceInfo` loop: for each trigger,
`Device: <device>` if `trigger.device` is truthy, then `Trigger: <key>` if
`trigger.key` is truthy. -/
def deviceFrags : List Trigger → List String
  | [] => []
  | t :: rest =>
      (match truthyStr t.device with
       | some d => ["Device: " ++ d]
       | none => []) ++
      (match truthyStr t.key with
       | some k => ["Trigger: " ++ k]
       | none => []) ++
      deviceFrags rest

/-- `extractDeviceInfo(alarm)`: `null` without a triggers array, otherwise the
fragments joined with `" | "`, or `null` when no fragment was produced.
This code is identical in the basic and face-recognition service variants. -/
def extractDeviceInfo (a : Alarm) : Option String :=
  match a.triggers with
  | none => none
  | some ts =>
      if deviceFrags ts = [] then none
      else some (joinSep " | " (deviceFrags ts))

/-- `typeof timestamp === "number" ? new Date(timestamp).toISOString()
: (timestamp || new Date().toISOString())` — the timestamp placed in the
embed by the nested-alarm service variants; `now` is the ambient current
time's ISO rendering at the moment of the call. -/
def formatTs (ts : TsVal) (now : String) : String :=
  match ts with
  | .num n => isoOfMillis n
  | .str s => if s = "" then now else s
  | .undef => now

namespace Bridge

/-- The keyword cascade inside the `extractEventType` loop of
`src/services/discord.js` (basic variant: five keywords). -/
def condKeyword (src : String) : Option String :=
  if strIncludes src "motion" then some "motion"
  else if strIncludes src "person" then some "person"
  else if strIncludes src "vehicle" then some "vehicle"
  else if strIncludes src "package" then some "package"
  else if strIncludes src "alert" then some "alert"
  else none

/-- The `for (const condition of alarm.conditions)` loop of
`extractEventType`: the first condition with a truthy source whose lowercased
source contains a keyword decides the result; otherwise scanning continues. -/
def findKeyword : List Condition → Option String
  | [] => none
  | c :: rest =>
      match condSource c with
      | some s =>
          match condKeyword (lowerStr s) with
          | some k => some k
          | none => findKeyword rest
      | none => findKeyword rest

/-- `DiscordService.extractEventType` of `src/services/discord.js`. -/
def extractEventType (a : Alarm) : String :=
  match a.conditions with
  | none => "unknown"
  | some conds =>
      match findKeyword conds with
      | some k => k
      | none =>
          match conds.head? with
          | some c =>
              match condSource c with
              | some s => lowerStr s
              | none => "unknown"
          | none => "unknown"

/-- `DiscordService.getEventConfig` of `src/services/discord.js`: the
five-entry lookup table with the generic purple fallback. -/
def getEventConfig (eventType : String) : EventConfig :=
  let k := lowerStr eventType
  if k = "motion" then ⟨"🚨", "Motion Detected", 15158332⟩
  else if k = "alert" then ⟨"⚠️", "Alert Triggered", 16776960⟩
  else if k = "person" then ⟨"👤", "Person Detected", 3447003⟩
  else if k = "vehicle" then ⟨"🚗", "Vehicle Detected", 7419530⟩
  else if k = "package" then ⟨"📦", "Package Detected", 5763719⟩
  else ⟨"🔔", "Event Detected", 10181046⟩

/-- `DiscordService.transformToDiscordFormat` of `src/services/discord.js`
(nested-alarm shape).  Accessing `alarm.name` on an absent `alarm` raises a
`TypeError` in JS, modelled by `Except.error`.  `now` is the ambient current
time used by the `new Date()` fallbacks. -/
def transformToDiscordFormat (e : EventData) (now : String) :
    Except Unit Message :=
  match e.alarm with
  | none => .error ()
  | some alarm =>
      let alarmName := match truthyStr alarm.name with
        | some n => n
        | none => "Unknown Alarm"
      let eventType := extractEventType alarm
      let eventConfig := getEventConfig eventType
      .ok
        { content := eventConfig.emoji ++ " **" ++ eventConfig.title ++ "**"
          embeds := [
            { title := "Unifi Protect Alert"
              description := alarmName
              color := eventConfig.color
              timestamp := .str (formatTs e.timestamp now)
              fields :=
                ⟨"Event Type", eventType, true⟩ ::
                ((extractDeviceInfo alarm).map
                  (fun d => EmbedField.mk "Device" d true)).toList ++
                (conditionsFieldOf alarm).toList }] }

end Bridge

namespace BridgeFlat

/-- `DiscordService.getEventConfig` of the flat-payload service variant: the
same five-entry table as the basic variant. -/
def getEventConfig (eventType : String) : EventConfig :=
  let k := lowerStr eventType
  if k = "motion" then ⟨"🚨", "Motion Detected", 15158332⟩
  else if k = "alert" then ⟨"⚠️", "Alert Triggered", 16776960⟩
  else if k = "person" then ⟨"👤", "Person Detected", 3447003⟩
  else if k = "vehicle" then ⟨"🚗", "Vehicle Detected", 7419530⟩
  else if k = "package" then ⟨"📦", "Package Detected", 5763719⟩
  else ⟨"🔔", "Event Detected", 10181046⟩

/-- `DiscordService.transformToDiscordFormat` of the flat-payload service
variant.  `getEventConfig` calls `eventType.toLowerCase()`, which raises a
`TypeError` when `eventType` is absent — modelled by `Except.error`.
`timestamp || new Date().toISOString()` uses JS truthiness of the raw
timestamp value (so the number `0` also falls back to `now`). -/
def transformToDiscordFormat (e : EventData) (now : String) :
    Except Unit Message :=
  match e.eventType with
  | none => .error ()
  | some et =>
      let eventConfig := getEventConfig et
      .ok
        { content := eventConfig.emoji ++ " **" ++ eventConfig.title ++ "**"
          embeds := [
            { title := "Unifi Protect Alert"
              description := match truthyStr e.description with
                | some d => d
                | none => "Event: " ++ et
              color := eventConfig.color
              timestamp := if tsTruthy e.timestamp then e.timestamp
                           else .str now
              fields :=
                ((truthyStr e.cameraName).map
                  (fun c => EmbedField.mk "Camera" c true)).toList ++
                [⟨"Event Type", et, true⟩] ++
                ((truthyStr e.location).map
                  (fun l => EmbedField.mk "Location" l true)).toList }] }

end BridgeFlat

namespace BridgeFR

/-- The keyword cascade inside the `extractEventType` loop of the
face-recognition service variant: the five basic keywords plus
`face_known` and `face_unknown`. -/
def condKeyword (src : String) : Option String :=
  if strIncludes src "motion" then some "motion"
  else if strIncludes src "person" then some "person"
  else if strIncludes src "vehicle" then some "vehicle"
  else if strIncludes src "package" then some "package"
  else if strIncludes src "alert" then some "alert"
  else if strIncludes src "face_known" then some "face_known"
  else if strIncludes src "face_unknown" then some "face_unknown"
  else none

/-- The conditions loop of `extractEventType` (face-recognition variant),
same scanning discipline as the basic variant. -/
def findKeyword : List Condition → Option String
  | [] => none
  | c :: rest =>
      match condSource c with
      | some s =>
          match condKeyword (lowerStr s) with
          | some k => some k
          | none => findKeyword rest
      | none => findKeyword rest

/-- `DiscordService.extractEventType` of the face-recognition service
variant. -/
def extractEventType (a : Alarm) : String :=
  match a.conditions with
  | none => "unknown"
  | some conds =>
      match findKeyword conds with
      | some k => k
      | none =>
          match conds.head? with
          | some c =>
              match condSource c with
              | some s => lowerStr s
              | none => "unknown"
          | none => "unknown"

/-- The name picked by `extractPersonInfo`:
`if (trigger.group && trigger.group.name) name = group.name;
else if (trigger.value) name = trigger.value;` (JS truthiness). -/
def personName (t : Trigger) : Option String :=
  match t.group with
  | some g =>
      match truthyStr g.name with
      | some n => some n
      | none => truthyStr t.value
  | none => truthyStr t.value

/-- The `for (const trigger of alarm.triggers)` loop of `extractPersonInfo`:
first trigger whose `key` is strictly equal to `"face_known"` or
`"face_unknown"`. -/
def findFace (a : Alarm) : List Trigger → Option PersonInfo
  | [] => none
  | t :: rest =>
      if t.key = some "face_known" ∨ t.key = some "face_unknown" then
        some
          { name := personName t
            eventId := t.eventId
            eventLocalLink := a.eventLocalLink
            eventPath := a.eventPath
            timestamp := t.timestamp }
      else findFace a rest

/-- `DiscordService.extractPersonInfo` of the face-recognition variant. -/
def extractPersonInfo (a : Alarm) : Option PersonInfo :=
  match a.triggers with
  | none => none
  | some ts => findFace a ts

/-- The triggers loop of `extractEventId`: first trigger with a truthy
`eventId`. -/
def findEid : List Trigger → Option String
  | [] => none
  | t :: rest =>
      match truthyStr t.eventId with
      | some e => some e
      | none => findEid rest

/-- `DiscordService.extractEventId` of the face-recognition variant. -/
def extractEventId (a : Alarm) : Option String :=
  match a.triggers with
  | none => none
  | some ts => findEid ts

/-- `DiscordService.getEventConfig` of the face-recognition variant: the
seven-entry table. -/
def getEventConfig (eventType : String) : EventConfig :=
  let k := lowerStr eventType
  if k = "motion" then ⟨"🚨", "Motion Detected", 15158332⟩
  else if k = "alert" then ⟨"⚠️", "Alert Triggered", 16776960⟩
  else if k = "person" then ⟨"👤", "Person Detected", 3447003⟩
  else if k = "vehicle" then ⟨"🚗", "Vehicle Detected", 7419530⟩
  else if k = "package" then ⟨"📦", "Package Detected", 5763719⟩
  else if k = "face_known" then ⟨"👤", "Known Person Detected", 3447003⟩
  else if k = "face_unknown" then ⟨"👤", "Unknown Person Detected", 16776960⟩
  else ⟨"🔔", "Event Detected", 10181046⟩

/-- `DiscordService.transformToDiscordFormat` of the face-recognition
variant: like the basic variant plus the optional `Person` and `Event ID`
fields derived from `extractPersonInfo`. -/
def transformToDiscordFormat (e : EventData) (now : String) :
    Except Unit Message :=
  match e.alarm with
  | none => .error ()
  | some alarm =>
      let alarmName := match truthyStr alarm.name with
        | some n => n
        | none => "Unknown Alarm"
      let eventType := extractEventType alarm
      let personInfo := extractPersonInfo alarm
      let eventConfig := getEventConfig eventType
      .ok
        { content := eventConfig.emoji ++ " **" ++ eventConfig.title ++ "**"
          embeds := [
            { title := "Unifi Protect Alert"
              description := alarmName
              color := eventConfig.color
              timestamp := .str (formatTs e.timestamp now)
              fields :=
                ⟨"Event Type", eventType, true⟩ ::
                ((personInfo.bind (fun p => truthyStr p.name)).map
                  (fun n => EmbedField.mk "Person" n true)).toList ++
                ((extractDeviceInfo alarm).map
                  (fun d => EmbedField.mk "Device" d true)).toList ++
                ((personInfo.bind (fun p => truthyStr p.eventId)).map
                  (fun eid => EmbedField.mk "Event ID" eid true)).toList ++
                (conditionsFieldOf alarm).toList }] }

/-- Outcome of the animated-thumbnail HTTP GET: a response with a status and
an optional body, or a network error / timeout (a rejected axios promise). -/
inductive ThumbOutcome where
  | resp (status : Nat) (data : Option (List Nat))
  | netErr
  deriving DecidableEq

/-- Oracle environment for the face-recognition service's network effects:
the configured API key, the thumbnail GET outcome per event id, and whether
the Discord webhook POST succeeds. -/
structure FrEnv where
  apiKey : Option String
  thumbResp : String → ThumbOutcome
  webhookOk : Bool

/-- `DiscordService.fetchAnimatedThumbnail`: returns `null` when the API key
is not configured, when no event id is supplied, when the GET fails, or when
the response is not a `200` with a body; otherwise the raw bytes.  All
failures are caught inside the function. -/
def fetchAnimatedThumbnail (env : FrEnv) (eventId : Option String) :
    Option (List Nat) :=
  match truthyStr env.apiKey with
  | none => none
  | some _ =>
      match eventId with
      | none => none
      | some eid =>
          if eid = "" then none
          else
            match env.thumbResp eid with
            | .netErr => none
            | .resp status data =>
                if status = 200 then
                  match data with
                  | some b => some b
                  | none => none
                else none

/-- Record of one dispatch through `processAndSend`: the delivery calls made
(payload and optional attachment) and the outcome surfaced to the caller. -/
structure SendRecord where
  sendCalls : List (Message × Option (List Nat))
  result : Except Unit Unit

/-- `DiscordService.processAndSend` of the face-recognition variant: the
initial logging itself calls `extractEventType(eventData.alarm)`, so an
absent `alarm` throws before anything is sent; otherwise the event id is
extracted, the thumbnail is fetched best-effort when the id is truthy, the
message is formatted and delivered exactly once (with the attachment when a
thumbnail was obtained), and only a delivery error propagates to the
caller. -/
def processAndSend (e : EventData) (env : FrEnv) (now : String) :
    SendRecord :=
  match e.alarm with
  | none => { sendCalls := [], result := .error () }
  | some a =>
      let eventId := extractEventId a
      let thumb := match eventId with
        | some eid => fetchAnimatedThumbnail env (some eid)
        | none => none
      match transformToDiscordFormat e now with
      | .error _ => { sendCalls := [], result := .error () }
      | .ok msg =>
          { sendCalls := [(msg, thumb)]
            result := if env.webhookOk then .ok () else .error () }

end BridgeFR

namespace Cli

/-- Fuel-driven model of JS `String.prototype.split(sep)` for a non-empty
separator: cut at each leftmost occurrence of `sep`.  The fuel is always
instantiated with `length + 1`, which suffices because each step consumes at
least one character. -/
def jsSplitAux (sep : List Char) : Nat → List Char → List (List Char)
  | 0, xs => [xs]
  | n + 1, xs =>
      match firstOccurFrom sep xs with
      | none => [xs]
      | some i => xs.take i :: jsSplitAux sep n (xs.drop (i + sep.length))

/-- JS `s.split(sep)` on character lists. -/
def jsSplitL (sep xs : List Char) : List (List Char) :=
  jsSplitAux sep (xs.length + 1) xs

/-- `cookie.split("TOKEN=")[1].split(";")[0]` — the token extraction applied
to one `Set-Cookie` header value.  The indexing is only reached in the source
under the `cookie.includes("TOKEN=")` guard, which guarantees element `1`
exists. -/
def cookieTokenExtract (cookie : String) : String :=
  let seg := ((jsSplitL "TOKEN=".data cookie.data).get? 1).getD []
  ⟨((jsSplitL [';'] seg).get? 0).getD []⟩

/-- The `for (const cookie of cookies)` loop of `authenticate`: the first
cookie containing `"TOKEN="` has the token extracted from it; if none does,
`sessionToken` stays unset. -/
def extractTokenFromCookies : List String → Option String
  | [] => none
  | c :: rest =>
      if strIncludes c "TOKEN=" then some (cookieTokenExtract c)
      else extractTokenFromCookies rest

/-- The persisted `cookies.txt` line written after a successful login:
`${host}\tTRUE\t/proxy/protect/\tTRUE\t${expiry}\tTOKEN\t${token}` with
`expiry = Math.floor(Date.now()/1000) + 24*60*60`. -/
def mkCookieLine (host : String) (nowSec : Nat) (token : String) : String :=
  host ++ "\tTRUE\t/proxy/protect/\tTRUE\t"
    ++ toString (nowSec + 24 * 60 * 60) ++ "\tTOKEN\t" ++ token

/-- Fuel-driven model of the regex search `/TOKEN\t([^\t\n]+)/` used by
`loadExistingSession`: at each occurrence of the literal `"TOKEN\t"`, the
greedy non-empty run of characters other than tab and newline is the match;
if the run is empty the engine resumes scanning after the failed position. -/
def regexTokenTab : Nat → List Char → Option String
  | 0, _ => none
  | n + 1, cs =>
      match firstOccurFrom "TOKEN\t".data cs with
      | none => none
      | some i =>
          let rest := cs.drop (i + 6)
          let run := rest.takeWhile (fun c => c != '\t' && c != '\n')
          if run.isEmpty then regexTokenTab n (cs.drop (i + 1))
          else some ⟨run⟩

/-- `loadExistingSession`: reads `cookies.txt` (here: its content, `none`
when the file is missing or unreadable) and extracts the token via the regex;
returns the token that gets stored in `this.sessionToken` (the JS function
returns `true` exactly when this is `some`). -/
def loadExistingSession (file : Option String) : Option String :=
  file.bind (fun s => regexTokenTab (s.data.length + 1) s.data)

/-- Outcome of the `POST /api/auth/login` request: a thrown axios error
(network failure, timeout or error status), or a response carrying an
optional `set-cookie` header list (the `if (cookies)` guard in the source
tolerates its absence). -/
inductive LoginOutcome where
  | netErr
  | resp (cookies : Option (List String))
  deriving DecidableEq

/-- Oracle environment for one `ensureAuthenticated` invocation: the
`cookies.txt` content, whether the `GET /api/auth/me` probe succeeds for a
given token, the outcome of the login request, the platform host and the
current epoch seconds. -/
structure Env where
  cookieFile : Option String
  probeOk : String → Bool
  login : LoginOutcome
  host : String
  nowSec : Nat

/-- Result of `authenticate` / `ensureAuthenticated`: the final
`this.sessionToken`, how many `POST /api/auth/login` calls were made, the
`cookies.txt` content afterwards, and the boolean the JS function returns. -/
structure AuthResult where
  ok : Bool
  loginCalls : Nat
  sessionToken : Option String
  cookieFile : Option String
  deriving DecidableEq

/-- `SingleEventProcessor.authenticate` (identical in
`discord-thumbnail-uploader.mjs`): one login POST; on a response, the token
extracted from the first `Set-Cookie` value containing `"TOKEN="` overwrites
`this.sessionToken`; when no cookie carries the marker (or the header is
absent) the field keeps its entry value `st`.  The guard
`if (!this.sessionToken) throw` then tests the INSTANCE FIELD: a truthy
token — possibly the stale cached one loaded before the call — is persisted
to `cookies.txt` with a fresh expiry and `true` is returned; a falsy field
raises `"No session token found"`, which the surrounding catch turns into
`false`.  A thrown login request is likewise caught and returns `false`
without touching the file. -/
def authenticate (env : Env) (st : Option String) : AuthResult :=
  match env.login with
  | .netErr =>
      { ok := false, loginCalls := 1, sessionToken := st
        cookieFile := env.cookieFile }
  | .resp cookiesOpt =>
      let newTok :=
        match cookiesOpt with
        | some cookies =>
            match extractTokenFromCookies cookies with
            | some t => some t
            | none => st
        | none => st
      match truthyStr newTok with
      | none =>
          { ok := false, loginCalls := 1, sessionToken := newTok
            cookieFile := env.cookieFile }
      | some t =>
          { ok := true, loginCalls := 1, sessionToken := some t
            cookieFile := some (mkCookieLine env.host env.nowSec t) }

/-- `SingleEventProcessor.ensureAuthenticated` (identical in
`discord-thumbnail-uploader.mjs`): load the cached session; if present,
probe `GET /api/auth/me` with it and return on success; otherwise fall
through to a single `authenticate` call. -/
def ensureAuthenticated (env : Env) : AuthResult :=
  match loadExistingSession env.cookieFile with
  | some t =>
      if env.probeOk t then
        { ok := true, loginCalls := 0, sessionToken := some t
          cookieFile := env.cookieFile }
      else authenticate env (some t)
  | none => authenticate env none

/-- Oracle environment for one `SingleEventProcessor.processEvent` run: does
`getEventInfo` produce event metadata, does the thumbnail download succeed
(a success writes the local file), does the Discord upload succeed, and does
`fs.unlinkSync` succeed.  The metadata content itself is irrelevant to the
claims about control flow. -/
structure CliEnv where
  eventInfoOk : Bool
  downloadOk : Bool
  uploadOk : Bool
  unlinkOk : Bool
  deriving DecidableEq

/-- Observable outcome of `processEvent`: the returned boolean, how many
Discord upload calls were made, whether the transient thumbnail file was
written, and whether it was deleted before returning. -/
structure CliResult where
  ok : Bool
  uploadCalls : Nat
  fileWritten : Bool
  fileDeleted : Bool
  deriving DecidableEq

/-- `SingleEventProcessor.processEvent`: fetch the event metadata (abort on
failure), download the thumbnail to `thumbnail-<id>.jpg` (abort on failure),
upload it to Discord (abort on failure), and only then delete the local file
(a failing `unlinkSync` is caught and only logged). -/
def processEvent (env : CliEnv) (_eventId : String) : CliResult :=
  if !env.eventInfoOk then
    { ok := false, uploadCalls := 0, fileWritten := false
      fileDeleted := false }
  else if !env.downloadOk then
    { ok := false, uploadCalls := 0, fileWritten := false
      fileDeleted := false }
  else if !env.uploadOk then
    { ok := false, uploadCalls := 1, fileWritten := true
      fileDeleted := false }
  else
    { ok := true, uploadCalls := 1, fileWritten := true
      fileDeleted := env.unlinkOk }

end Cli

namespace Validator

/-- A JSON-ish JS value, as far as `sanitizeData` can observe it. -/
inductive JVal where
  | jnull
  | jbool (b : Bool)
  | jnum (n : Int)
  | jstr (s : String)
  | jobj (fields : List (String × JVal))

/-- JS truthiness of a `JVal` (objects are always truthy, including empty
ones). -/
def jsTruthy : JVal → Bool
  | .jnull => false
  | .jbool b => b
  | .jnum n => n ≠ 0
  | .jstr s => s ≠ ""
  | .jobj _ => true

/-- Models the JS `String(x)` coercion applied by `sanitizeData`. -/
def jsToString : JVal → String
  | .jnull => "null"
  | .jbool true => "true"
  | .jbool false => "false"
  | .jnum n => toString n
  | .jstr s => s
  | .jobj _ => "[object Object]"

/-- Models `s.substring(0, n)` (character-based; the sources truncate at 100
and 2000). -/
def strTake (s : String) (n : Nat) : String :=
  ⟨s.data.take n⟩

/-- A JS object as an ordered key-value list (property read = first match). -/
abbrev JObj := List (String × JVal)

/-- Property read `o[k]`. -/
def jsLookup (k : String) : JObj → Option JVal
  | [] => none
  | (k1, v) :: rest => if k1 = k then some v else jsLookup k rest

/-- `delete o[k]`: drop every entry with the given key. -/
def deleteKey (k : String) : JObj → JObj
  | [] => []
  | (k1, v) :: rest =>
      if k1 = k then deleteKey k rest else (k1, v) :: deleteKey k rest

/-- Property write `o[k] = v`.  `sanitizeData` only writes a key after
observing it truthy, so the key is present; replacing it in place models the
assignment. -/
def setKey (k : String) (v : JVal) : JObj → JObj
  | [] => []
  | (k1, w) :: rest =>
      if k1 = k then (k, v) :: setKey k v rest
      else (k1, w) :: setKey k v rest

/-- The step `if (sanitized.cameraName) sanitized.cameraName =
String(sanitized.cameraName).substring(0, 100);`. -/
def truncCamera (o : JObj) : JObj :=
  match jsLookup "cameraName" o with
  | some v =>
      if jsTruthy v then
        setKey "cameraName" (.jstr (strTake (jsToString v) 100)) o
      else o
  | none => o

/-- The step `if (sanitized.description) sanitized.description =
String(sanitized.description).substring(0, 2000);`. -/
def truncDescription (o : JObj) : JObj :=
  match jsLookup "description" o with
  | some v =>
      if jsTruthy v then
        setKey "description" (.jstr (strTake (jsToString v) 2000)) o
      else o
  | none => o

/-- `sanitizeData` of `src/utils/validator.js`: shallow-copy the payload,
delete `secret`, `password` and `token`, and truncate a truthy `cameraName`
to 100 and a truthy `description` to 2000 characters after `String(...)`
coercion, in that order. -/
def sanitizeData (data : JObj) : JObj :=
  truncDescription (truncCamera
    (deleteKey "token" (deleteKey "password" (deleteKey "secret" data))))

end Validator

/-! ### Specification-side definitions

The following definitions are written from the words of the specification
claims (not from the source) and exist to be compared with the translated
code above. -/

/-- The five event keywords of the basic service variant, in priority
order. -/
def keywords5 : List String :=
  ["motion", "person", "vehicle", "package", "alert"]

/-- The seven event keywords of the face-recognition variant, in priority
order. -/
def keywords7 : List String :=
  ["motion", "person", "vehicle", "package", "alert", "face_known",
   "face_unknown"]

/-- Claim wording of event-type extraction: the result is the first keyword
in priority order that occurs (case-insensitively) in the source of ANY
condition — keyword priority is respected across the whole conditions array;
then the same fallbacks as the code. -/
def specEventTypePriority (kws : List String) (a : Alarm) : String :=
  match a.conditions with
  | none => "unknown"
  | some conds =>
      match kws.find? (fun k => conds.any (fun c =>
          match condSource c with
          | some s => strIncludes (lowerStr s) k
          | none => false)) with
      | some k => k
      | none =>
          match conds.head? with
          | some c =>
              match condSource c with
              | some s => lowerStr s
              | none => "unknown"
          | none => "unknown"

/-- Amended wording of event-type extraction: conditions are scanned in
document order and the first condition whose source contains any keyword
decides the result, the keyword chosen by priority within that one source;
then the same fallbacks. -/
def specEventTypeScan (kws : List String) (a : Alarm) : String :=
  match a.conditions with
  | none => "unknown"
  | some conds =>
      match conds.findSome? (fun c => (condSource c).bind (fun s =>
          kws.find? (fun k => strIncludes (lowerStr s) k))) with
      | some k => k
      | none =>
          match conds.head? with
          | some c =>
              match condSource c with
              | some s => lowerStr s
              | none => "unknown"
          | none => "unknown"

/-- Claim wording of session-token extraction: the substring of the cookie
between the first occurrence of `TOKEN=` and the next `;` (or the end of the
string when no `;` follows). -/
def specTokenToSemicolon (cookie : String) : String :=
  match firstOccurFrom "TOKEN=".data cookie.data with
  | none => ""
  | some i =>
      let rest := cookie.data.drop (i + "TOKEN=".data.length)
      match firstOccurFrom [';'] rest with
      | some k => ⟨rest.take k⟩
      | none => ⟨rest⟩

/-- Minimum of two optional indices (a missing delimiter does not bound the
token). -/
def minOpt : Option Nat → Option Nat → Option Nat
  | some a, some b => some (min a b)
  | some a, none => some a
  | none, some b => some b
  | none, none => none

/-- Amended wording of session-token extraction: the substring of the cookie
after the first `TOKEN=`, ending at the next `;` or the next further
occurrence of `TOKEN=`, whichever comes first (or the end of the string). -/
def specTokenToDelimiter (cookie : String) : String :=
  match firstOccurFrom "TOKEN=".data cookie.data with
  | none => ""
  | some i =>
      let rest := cookie.data.drop (i + "TOKEN=".data.length)
      match minOpt (firstOccurFrom [';'] rest)
          (firstOccurFrom "TOKEN=".data rest) with
      | some d => ⟨rest.take d⟩
      | none => ⟨rest⟩

/-- The truthy `condition.condition.type` of a condition entry, if any. -/
def condType (c : Condition) : Option String :=
  match c.condition with
  | some ci => truthyStr ci.type
  | none => none

/-- Claim wording of one conditions-summary fragment: always
`"<source> (<type>)"`, with source and type each individually defaulting to
`"unknown"` when absent. -/
def specCondFragment (c : Condition) : String :=
  (condSource c).getD "unknown" ++ " (" ++ (condType c).getD "unknown" ++ ")"

/-- Claim wording of the conditions summary: the claim fragments joined with
`", "`. -/
def specConditionsSummary (conds : List Condition) : String :=
  joinSep ", " (conds.map specCondFragment)

/-- Claim wording of the person name: `trigger.group.name` when present,
else `trigger.value` (JS truthiness for presence). -/
def specPersonName (t : Trigger) : Option String :=
  match truthyStr (t.group.bind TriggerGroup.name) with
  | some n => some n
  | none => truthyStr t.value

/-- Is a trigger a face-recognition trigger (`key` strictly equal to
`face_known` or `face_unknown`)? -/
def isFaceTrigger (t : Trigger) : Bool :=
  t.key == some "face_known" || t.key == some "face_unknown"

/-- Timestamps for which the formatters are time-independent: a numeric
timestamp (formatted from the epoch value) or a non-empty string (used
verbatim). -/
def tsProvided : TsVal → Bool
  | .num _ => true
  | .str s => s ≠ ""
  | .undef => false

/-- Value of the `Event Type` field of the first embed of a message. -/
def msgEventTypeValue (m : Message) : Option String :=
  m.embeds.head?.bind (fun emb =>
    (emb.fields.find? (fun f => f.name == "Event Type")).map EmbedField.value)

/-- Timestamp of the first embed of a transformation result (used to observe
time dependence). -/
def msgTimestamp (r : Except Unit Message) : Option TsVal :=
  match r with
  | .ok m => m.embeds.head?.map Embed.timestamp
  | .error _ => none

/-! ### Concrete inputs for witnesses and counterexamples -/

/-- Alarm whose first condition source contains `person` and whose second
contains `motion`. -/
def alarmPersonThenMotion : Alarm :=
  { name := none
    conditions := some [⟨some ⟨some "person", none⟩⟩,
                        ⟨some ⟨some "motion", none⟩⟩]
    triggers := none
    eventLocalLink := none
    eventPath := none }

/-- The spec's scenario alarm: a motion condition and a device trigger. -/
def alarmScenario : Alarm :=
  { name := some "Front Door Motion"
    conditions := some [⟨some ⟨some "motion", some "is"⟩⟩]
    triggers := some [{ device := some "74ACB99F4E24", key := some "motion"
                        eventId := none, value := none, group := none
                        timestamp := none }]
    eventLocalLink := none
    eventPath := none }

/-- The spec's scenario payload (nested shape). -/
def eventScenario : EventData :=
  { alarm := some alarmScenario
    timestamp := .num 1722526793954
    eventType := none, cameraName := none, description := none
    location := none }

/-- A flat-shape payload. -/
def eventFlat : EventData :=
  { alarm := none
    timestamp := .str "2025-01-15T10:30:00.000Z"
    eventType := some "motion"
    cameraName := some "Front Door"
    description := none
    location := none }

/-- A nested payload with no timestamp at all. -/
def eventNoTs : EventData :=
  { alarm := some { name := none, conditions := none, triggers := none
                    eventLocalLink := none, eventPath := none }
    timestamp := .undef
    eventType := none, cameraName := none, description := none
    location := none }

/-- Alarm with a trigger carrying an event id (thumbnail candidate). -/
def alarmWithEventId : Alarm :=
  { name := some "Gate"
    conditions := some [⟨some ⟨some "motion", some "is"⟩⟩]
    triggers := some [{ device := some "cam1", key := some "motion"
                        eventId := some "evt42", value := none, group := none
                        timestamp := none }]
    eventLocalLink := none
    eventPath := none }

/-- Payload for the face-recognition variant with a thumbnail candidate. -/
def eventWithEventId : EventData :=
  { alarm := some alarmWithEventId
    timestamp := .num 7
    eventType := none, cameraName := none, description := none
    location := none }

/-- Face-recognition environment whose thumbnail GET always fails. -/
def frEnvThumbFail : BridgeFR.FrEnv :=
  { apiKey := some "k", thumbResp := fun _ => .netErr, webhookOk := true }

/-- CLI environment: metadata available but thumbnail download fails. -/
def cliEnvDownloadFail : Cli.CliEnv :=
  { eventInfoOk := true, downloadOk := false, uploadOk := true
    unlinkOk := true }

/-- CLI environment: download succeeds but the Discord upload fails. -/
def cliEnvUploadFail : Cli.CliEnv :=
  { eventInfoOk := true, downloadOk := true, uploadOk := false
    unlinkOk := true }

/-- Authentication environment with a valid cached session. -/
def envCachedValid : Cli.Env :=
  { cookieFile := some "192.168.1.80\tTRUE\t/proxy/protect/\tTRUE\t1\tTOKEN\tabc"
    probeOk := fun _ => true
    login := .netErr
    host := "192.168.1.80"
    nowSec := 100 }

/-- Authentication environment with no cached session and a successful
login. -/
def envFreshLogin : Cli.Env :=
  { cookieFile := none
    probeOk := fun _ => false
    login := .resp (some ["TOKEN=xyz; path=/; HttpOnly"])
    host := "h"
    nowSec := 0 }

/-- Authentication environment with a cached token whose probe fails, and a
login response that carries no `TOKEN=` cookie. -/
def envStaleLogin : Cli.Env :=
  { cookieFile := some "h\tTRUE\t/proxy/protect/\tTRUE\t1\tTOKEN\tabc"
    probeOk := fun _ => false
    login := .resp (some ["foo=bar"])
    host := "h"
    nowSec := 5 }

/-- Sample webhook object for the sanitizer, with a secret, a camera name
and a nested alarm object. -/
def sampleObj : Validator.JObj :=
  [("secret", .jstr "tops3cret"),
   ("cameraName", .jstr "Front Door"),
   ("alarm", .jobj [("name", .jstr "Gate Motion")]),
   ("timestamp", .jnum 1722526793954)]

/-! ### Helper lemmas -/

theorem occ_single_take (ch : Char) (l : List Char) (j : Nat) :
    firstOccurFrom [ch] (l.take j) =
      match firstOccurFrom [ch] l with
      | none => none
      | some k => if k < j then some k else none := by
  induction l generalizing j with
  | nil => simp [firstOccurFrom]
  | cons x t ih =>
      cases j with
      | zero =>
          simp only [List.take_zero, firstOccurFrom, List.isPrefixOf,
            Bool.false_eq_true, if_false]
          split <;> simp
      | succ j1 =>
          simp only [List.take_succ_cons, firstOccurFrom, List.isPrefixOf,
            Bool.and_true]
          by_cases hx : ch = x
          · simp [hx]
          · have hbe : (ch == x) = false := by simp [hx]
            simp only [hbe, Bool.false_eq_true, if_false]
            cases ho : firstOccurFrom [ch] t with
            | none => simp [ih, ho]
            | some k => simp [ih, ho, Nat.succ_lt_succ_iff]

theorem occ_some_ne_nil {sep xs : List Char} {i : Nat}
    (h : firstOccurFrom sep xs = some i) (hsep : sep ≠ []) : xs ≠ [] := by
  intro hx
  subst hx
  cases sep with
  | nil => exact hsep rfl
  | cons a s => simp [firstOccurFrom, List.isPrefixOf] at h

theorem truthyStr_ne_empty {o : Option String} {s : String}
    (h : truthyStr o = some s) : s ≠ "" := by
  cases o with
  | none => exact absurd h (by simp [truthyStr])
  | some s0 =>
      by_cases h0 : s0 = ""
      · simp [truthyStr, h0] at h
      · simp only [truthyStr, h0, if_false] at h
        exact Option.some_inj.mp h ▸ h0

theorem condSource_ne_empty {c : Condition} {s : String}
    (h : condSource c = some s) : s ≠ "" := by
  cases hc : c.condition with
  | none => simp [condSource, hc] at h
  | some ci =>
      simp only [condSource, hc] at h
      exact truthyStr_ne_empty h

theorem lowerStr_ne_empty {s : String} (h : s ≠ "") : lowerStr s ≠ "" := by
  intro hl
  apply h
  cases s with
  | mk data =>
      have : data.map Char.toLower = [] := by
        have := congrArg String.data hl
        simpa [lowerStr] using this
      have hd : data = [] := List.map_eq_nil_iff.mp this
      simp [hd]

theorem Bridge.condKeyword_ne_empty {s k : String}
    (h : Bridge.condKeyword s = some k) : k ≠ "" := by
  unfold Bridge.condKeyword at h
  repeat' split at h
  all_goals first
    | (injection h with h2; subst h2; decide)
    | cases h

theorem Bridge.findKeyword_ne_empty :
    ∀ {conds : List Condition} {k : String},
      Bridge.findKeyword conds = some k → k ≠ "" := by
  intro conds
  induction conds with
  | nil => intro k h; cases h
  | cons c rest ih =>
      intro k h
      unfold Bridge.findKeyword at h
      cases hcs : condSource c with
      | none => simp only [hcs] at h; exact ih h
      | some s =>
          simp only [hcs] at h
          cases hck : Bridge.condKeyword (lowerStr s) with
          | none => simp only [hck] at h; exact ih h
          | some k2 =>
              simp only [hck] at h
              injection h with h2
              subst h2
              exact Bridge.condKeyword_ne_empty hck

theorem Bridge.extractEventType_ne_empty (a : Alarm) :
    Bridge.extractEventType a ≠ "" := by
  unfold Bridge.extractEventType
  cases hc : a.conditions with
  | none => simp only [hc]; decide
  | some conds =>
      simp only [hc]
      cases hk : Bridge.findKeyword conds with
      | some k => simp only [hk]; exact Bridge.findKeyword_ne_empty hk
      | none =>
          simp only [hk]
          cases hh : conds.head? with
          | none => simp only [hh]; decide
          | some c =>
              simp only [hh]
              cases hcs : condSource c with
              | none => simp only [hcs]; decide
              | some s =>
                  simp only [hcs]
                  exact lowerStr_ne_empty (condSource_ne_empty hcs)

theorem Bridge.condKeyword_eq_find (s : String) :
    Bridge.condKeyword s = keywords5.find? (fun k => strIncludes s k) := by
  simp only [Bridge.condKeyword, keywords5, List.find?]
  repeat' split <;> simp_all

theorem Bridge.findKeyword_eq_findSome (conds : List Condition) :
    Bridge.findKeyword conds =
      conds.findSome? (fun c => (condSource c).bind (fun s =>
        keywords5.find? (fun k => strIncludes (lowerStr s) k))) := by
  induction conds with
  | nil => rfl
  | cons c rest ih =>
      unfold Bridge.findKeyword
      rw [List.findSome?_cons]
      cases hcs : condSource c with
      | none => simp only [hcs, Option.none_bind]; exact ih
      | some s =>
          simp only [hcs, Option.some_bind]
          rw [← Bridge.condKeyword_eq_find]
          cases hck : Bridge.condKeyword (lowerStr s) with
          | none => simp only [hck]; exact ih
          | some k => simp only [hck]

theorem BridgeFR.condKeyword7_ne_empty {s k : String}
    (h : BridgeFR.condKeyword s = some k) : k ≠ "" := by
  unfold BridgeFR.condKeyword at h
  repeat' split at h
  all_goals first
    | (injection h with h2; subst h2; decide)
    | cases h

theorem BridgeFR.findKeyword7_ne_empty :
    ∀ {conds : List Condition} {k : String},
      BridgeFR.findKeyword conds = some k → k ≠ "" := by
  intro conds
  induction conds with
  | nil => intro k h; cases h
  | cons c rest ih =>
      intro k h
      unfold BridgeFR.findKeyword at h
      cases hcs : condSource c with
      | none => simp only [hcs] at h; exact ih h
      | some s =>
          simp only [hcs] at h
          cases hck : BridgeFR.condKeyword (lowerStr s) with
          | none => simp only [hck] at h; exact ih h
          | some k2 =>
              simp only [hck] at h
              injection h with h2
              subst h2
              exact BridgeFR.condKeyword7_ne_empty hck

theorem BridgeFR.extractEventTypeFR_ne_empty (a : Alarm) :
    BridgeFR.extractEventType a ≠ "" := by
  unfold BridgeFR.extractEventType
  cases hc : a.conditions with
  | none => simp only [hc]; decide
  | some conds =>
      simp only [hc]
      cases hk : BridgeFR.findKeyword conds with
      | some k => simp only [hk]; exact BridgeFR.findKeyword7_ne_empty hk
      | none =>
          simp only [hk]
          cases hh : conds.head? with
          | none => simp only [hh]; decide
          | some c =>
              simp only [hh]
              cases hcs : condSource c with
              | none => simp only [hcs]; decide
              | some s =>
                  simp only [hcs]
                  exact lowerStr_ne_empty (condSource_ne_empty hcs)

theorem BridgeFR.condKeyword7_eq_find (s : String) :
    BridgeFR.condKeyword s = keywords7.find? (fun k => strIncludes s k) := by
  simp only [BridgeFR.condKeyword, keywords7, List.find?]
  repeat' split <;> simp_all

theorem BridgeFR.findKeyword7_eq_findSome (conds : List Condition) :
    BridgeFR.findKeyword conds =
      conds.findSome? (fun c => (condSource c).bind (fun s =>
        keywords7.find? (fun k => strIncludes (lowerStr s) k))) := by
  induction conds with
  | nil => rfl
  | cons c rest ih =>
      unfold BridgeFR.findKeyword
      rw [List.findSome?_cons]
      cases hcs : condSource c with
      | none => simp only [hcs, Option.none_bind]; exact ih
      | some s =>
          simp only [hcs, Option.some_bind]
          rw [← BridgeFR.condKeyword7_eq_find]
          cases hck : BridgeFR.condKeyword (lowerStr s) with
          | none => simp only [hck]; exact ih
          | some k => simp only [hck]

namespace Cli

theorem jsSplitAux_get0 (sep : List Char) (n : Nat) (xs : List Char) :
    (jsSplitAux sep (n + 1) xs).get? 0 =
      some (match firstOccurFrom sep xs with
            | none => xs
            | some i => xs.take i) := by
  unfold jsSplitAux
  cases h : firstOccurFrom sep xs <;> simp

theorem jsSplitL_get1 {sep xs : List Char} {i : Nat}
    (h : firstOccurFrom sep xs = some i) (hsep : sep ≠ []) :
    (jsSplitL sep xs).get? 1 =
      some (match firstOccurFrom sep (xs.drop (i + sep.length)) with
            | none => xs.drop (i + sep.length)
            | some j => (xs.drop (i + sep.length)).take j) := by
  cases xs with
  | nil => exact absurd rfl (occ_some_ne_nil h hsep)
  | cons x t =>
      show (jsSplitAux sep (t.length + 1 + 1) (x :: t)).get? 1 = _
      unfold jsSplitAux
      rw [h]
      simp only [List.get?_cons_succ]
      exact jsSplitAux_get0 sep t.length ((x :: t).drop (i + sep.length))

theorem cookieTokenExtract_eq_spec {c : String} {i : Nat}
    (h : firstOccurFrom "TOKEN=".data c.data = some i) :
    cookieTokenExtract c = specTokenToDelimiter c := by
  have hsep : "TOKEN=".data ≠ [] := by decide
  unfold cookieTokenExtract specTokenToDelimiter
  rw [jsSplitL_get1 h hsep, h]
  simp only [Option.getD_some]
  cases hr : firstOccurFrom "TOKEN=".data
      (c.data.drop (i + "TOKEN=".data.length)) with
  | none =>
      show (⟨((jsSplitAux [';'] _ _).get? 0).getD []⟩ : String) = _
      rw [jsSplitAux_get0]
      cases hk : firstOccurFrom [';']
          (c.data.drop (i + "TOKEN=".data.length)) <;>
        simp [minOpt, hk]
  | some j =>
      show (⟨((jsSplitAux [';'] _ _).get? 0).getD []⟩ : String) = _
      rw [jsSplitAux_get0]
      rw [occ_single_take]
      cases hk : firstOccurFrom [';']
          (c.data.drop (i + "TOKEN=".data.length)) with
      | none => simp [minOpt, hk]
      | some k =>
          by_cases hkj : k < j
          · simp only [hkj, if_true, minOpt, Option.getD_some]
            rw [List.take_take]
          · simp only [hkj, if_false, minOpt, Option.getD_some]
            congr 2
            omega

theorem extractTokenFromCookies_eq_spec (cookies : List String) :
    extractTokenFromCookies cookies =
      (cookies.find? (fun c => strIncludes c "TOKEN=")).map
        specTokenToDelimiter := by
  induction cookies with
  | nil => rfl
  | cons c rest ih =>
      cases hC : strIncludes c "TOKEN=" with
      | true =>
          obtain ⟨i, hi⟩ := Option.isSome_iff_exists.mp hC
          simp only [extractTokenFromCookies, hC, if_true, List.find?, hC,
            Option.map_some']
          exact congrArg some (cookieTokenExtract_eq_spec hi)
      | false =>
          simp only [extractTokenFromCookies, hC, Bool.false_eq_true,
            if_false, List.find?, hC, ih]

end Cli

namespace Validator

theorem jsLookup_deleteKey_self (k : String) (o : JObj) :
    jsLookup k (deleteKey k o) = none := by
  induction o with
  | nil => rfl
  | cons kv rest ih =>
      obtain ⟨k1, v⟩ := kv
      by_cases h : k1 = k
      · simpa [deleteKey, h] using ih
      · simpa [deleteKey, jsLookup, h] using ih

theorem jsLookup_deleteKey_ne {k k1 : String} (h : k ≠ k1) (o : JObj) :
    jsLookup k (deleteKey k1 o) = jsLookup k o := by
  induction o with
  | nil => rfl
  | cons kv rest ih =>
      obtain ⟨q, v⟩ := kv
      by_cases hq : q = k1
      · subst hq
        simp only [deleteKey, if_pos rfl, jsLookup, if_neg (Ne.symm h)]
        exact ih
      · by_cases hqk : q = k <;> simp_all [deleteKey, jsLookup]

theorem jsLookup_setKey_ne {k k1 : String} (h : k ≠ k1) (v : JVal)
    (o : JObj) : jsLookup k (setKey k1 v o) = jsLookup k o := by
  induction o with
  | nil => rfl
  | cons kv rest ih =>
      obtain ⟨q, w⟩ := kv
      by_cases hq : q = k1
      · subst hq
        simp only [setKey, if_pos rfl, jsLookup, if_neg (Ne.symm h),
          if_neg (fun hqq : q = k => h (hqq ▸ rfl))]
        exact ih
      · by_cases hqk : q = k <;> simp_all [setKey, jsLookup]

theorem jsLookup_setKey_self {k : String} {o : JObj} {w : JVal}
    (h : jsLookup k o = some w) (v : JVal) :
    jsLookup k (setKey k v o) = some v := by
  induction o with
  | nil => cases h
  | cons kv rest ih =>
      obtain ⟨q, u⟩ := kv
      by_cases hq : q = k
      · simp [setKey, hq, jsLookup]
      · simp only [jsLookup, hq, if_false] at h
        simp [setKey, jsLookup, hq, ih h]

theorem truncCamera_lookup_ne {k : String} (h : k ≠ "cameraName")
    (o : JObj) : jsLookup k (truncCamera o) = jsLookup k o := by
  unfold truncCamera
  cases hc : jsLookup "cameraName" o with
  | none => rfl
  | some v =>
      by_cases ht : jsTruthy v <;> simp [ht, jsLookup_setKey_ne h]

theorem truncDescription_lookup_ne {k : String} (h : k ≠ "description")
    (o : JObj) : jsLookup k (truncDescription o) = jsLookup k o := by
  unfold truncDescription
  cases hc : jsLookup "description" o with
  | none => rfl
  | some v =>
      by_cases ht : jsTruthy v <;> simp [ht, jsLookup_setKey_ne h]

theorem truncCamera_lookup_self {o : JObj} {v : JVal}
    (h : jsLookup "cameraName" o = some v) (ht : jsTruthy v = true) :
    jsLookup "cameraName" (truncCamera o) =
      some (.jstr (strTake (jsToString v) 100)) := by
  unfold truncCamera
  rw [h]
  simp only [ht, if_true]
  exact jsLookup_setKey_self h _

theorem truncDescription_lookup_self {o : JObj} {v : JVal}
    (h : jsLookup "description" o = some v) (ht : jsTruthy v = true) :
    jsLookup "description" (truncDescription o) =
      some (.jstr (strTake (jsToString v) 2000)) := by
  unfold truncDescription
  rw [h]
  simp only [ht, if_true]
  exact jsLookup_setKey_self h _

theorem strTake_length_le (s : String) (n : Nat) :
    (strTake s n).length ≤ n := by
  simp only [strTake, String.length]
  exact List.length_take_le n s.data

end Validator

/-! ### Claim theorems -/

/-- Claim C1, counterexample.  With conditions whose sources are `person`
then `motion`, the code returns `person` (document order of conditions wins),
while the claim's priority-across-conditions reading demands `motion`. -/
theorem C1_counterexample :
    BridgeFR.extractEventType alarmPersonThenMotion = "person" ∧
    specEventTypePriority keywords7 alarmPersonThenMotion = "motion" ∧
    BridgeFR.extractEventType alarmPersonThenMotion ≠
      specEventTypePriority keywords7 alarmPersonThenMotion := by
  decide

/-- Claim C1 (amended): event-type extraction scans the conditions in
document order; the first condition with a truthy source containing any
keyword decides the result, with the keyword priority applied within that
single source; otherwise the lower-cased truthy source of the first
condition; otherwise `unknown`.  The face-recognition variant uses the
seven-keyword list, the basic webhook service only the first five. -/
theorem C1_amended :
    (∀ a : Alarm,
        BridgeFR.extractEventType a = specEventTypeScan keywords7 a) ∧
    (∀ a : Alarm,
        Bridge.extractEventType a = specEventTypeScan keywords5 a) := by
  constructor
  · intro a
    unfold BridgeFR.extractEventType specEventTypeScan
    cases hc : a.conditions with
    | none => rfl
    | some conds => simp only [BridgeFR.findKeyword7_eq_findSome]
  · intro a
    unfold Bridge.extractEventType specEventTypeScan
    cases hc : a.conditions with
    | none => rfl
    | some conds => simp only [Bridge.findKeyword_eq_findSome]

/-- Claim C5, counterexample.  For the cookie `TOKEN=abTOKEN=cd;e`, the
code's `split("TOKEN=")[1].split(";")[0]` yields `ab`, but the substring
between the first `TOKEN=` and the next `;` is `abTOKEN=cd`. -/
theorem C5_counterexample :
    Cli.extractTokenFromCookies ["TOKEN=abTOKEN=cd;e"] = some "ab" ∧
    specTokenToSemicolon "TOKEN=abTOKEN=cd;e" = "abTOKEN=cd" ∧
    Cli.extractTokenFromCookies ["TOKEN=abTOKEN=cd;e"] ≠
      some (specTokenToSemicolon "TOKEN=abTOKEN=cd;e") := by
  decide

/-- Claim C5 (amended): the token extracted from the login response is taken
from the first `Set-Cookie` value containing `TOKEN=` and equals the
substring after the first `TOKEN=` ending at the next `;` or the next
further `TOKEN=` occurrence, whichever comes first (or the end of the
cookie).  When no cookie contains the marker, no token is extracted from the
response; if additionally no previously loaded session token is held in
`this.sessionToken`, `authenticate` fails without touching the cookie file
(with a truthy cached token in hand the code instead re-persists that stale
token and reports success — see claim C3). -/
theorem C5_amended :
    (∀ cookies : List String,
        Cli.extractTokenFromCookies cookies =
          (cookies.find? (fun c => strIncludes c "TOKEN=")).map
            specTokenToDelimiter) ∧
    (∀ (env : Cli.Env) (st : Option String) (cookies : List String),
        env.login = Cli.LoginOutcome.resp (some cookies) →
        Cli.extractTokenFromCookies cookies = none →
        truthyStr st = none →
        (Cli.authenticate env st).ok = false ∧
        (Cli.authenticate env st).cookieFile = env.cookieFile) := by
  constructor
  · exact Cli.extractTokenFromCookies_eq_spec
  · intro env st cookies hlo hex htr
    simp [Cli.authenticate, hlo, hex, htr]

/-- Claim C5, witness for the amended theorem. -/
theorem C5_witness :
    Cli.extractTokenFromCookies ["csrf=1; Path=/", "TOKEN=xyz; path=/"] =
      (["csrf=1; Path=/", "TOKEN=xyz; path=/"].find?
          (fun c => strIncludes c "TOKEN=")).map specTokenToDelimiter ∧
    ((Cli.authenticate
        { cookieFile := none, probeOk := fun _ => false
          login := .resp (some ["a=b"]), host := "h", nowSec := 0 }
        none).ok = false ∧
      (Cli.authenticate
        { cookieFile := none, probeOk := fun _ => false
          login := .resp (some ["a=b"]), host := "h", nowSec := 0 }
        none).cookieFile = none) :=
  ⟨C5_amended.1 ["csrf=1; Path=/", "TOKEN=xyz; path=/"],
   C5_amended.2 _ none ["a=b"] rfl (by decide) rfl⟩

/-- Claim C8, counterexample.  A condition without an inner `condition`
object contributes the bare fragment `unknown`, not the claim's
`unknown (unknown)`. -/
theorem C8_counterexample :
    conditionsSummary [Condition.mk none] = "unknown" ∧
    specConditionsSummary [Condition.mk none] = "unknown (unknown)" ∧
    conditionsSummary [Condition.mk none] ≠
      specConditionsSummary [Condition.mk none] := by
  decide

/-- Claim C8 (amended): for a non-empty conditions array the summary is the
comma-separated join of one fragment per condition, where a condition WITH an
inner `condition` object yields `"<source> (<type>)"` (source and type each
individually defaulting to `unknown` when absent) and a condition WITHOUT an
inner object yields the bare fragment `"unknown"`; the `Conditions` field is
absent exactly when the conditions array is empty or missing. -/
theorem C8_amended :
    (∀ conds : List Condition,
        conditionsSummary conds =
          joinSep ", " (conds.map (fun c =>
            match c.condition with
            | some _ => specCondFragment c
            | none => "unknown"))) ∧
    (∀ a : Alarm, conditionsFieldOf a = none ↔
        a.conditions = none ∨ a.conditions = some []) := by
  constructor
  · intro conds
    unfold conditionsSummary
    have hf : ∀ c : Condition, condFragment c =
        match c.condition with
        | some _ => specCondFragment c
        | none => "unknown" := by
      intro c
      cases hc : c.condition with
      | none => simp [condFragment, hc]
      | some ci =>
          simp only [condFragment, specCondFragment, condSource, condType,
            hc]
          cases hts : truthyStr ci.source <;>
            cases htt : truthyStr ci.type <;>
            simp only [hts, htt, Option.getD_some, Option.getD_none]
    have hfe : condFragment = (fun c : Condition =>
        match c.condition with
        | some _ => specCondFragment c
        | none => "unknown") := funext hf
    rw [hfe]
  · intro a
    cases hc : a.conditions with
    | none => simp [conditionsFieldOf, hc]
    | some conds => cases conds <;> simp [conditionsFieldOf, hc]

/-- Claim C8, witness for the amended theorem: an empty conditions array
yields no `Conditions` field, and a regular condition yields the claim's
fragment. -/
theorem C8_witness :
    conditionsFieldOf ⟨none, some [], none, none, none⟩ = none ∧
    conditionsSummary [⟨some ⟨some "motion", some "is"⟩⟩] =
      joinSep ", " ([(⟨some ⟨some "motion", some "is"⟩⟩ : Condition)].map
        (fun c =>
          match c.condition with
          | some _ => specCondFragment c
          | none => "unknown")) :=
  ⟨(C8_amended.2 ⟨none, some [], none, none, none⟩).mpr (Or.inr rfl),
   C8_amended.1 [⟨some ⟨some "motion", some "is"⟩⟩]⟩

/-- Claim C9, counterexample.  When the Discord upload fails, `processEvent`
returns early and the transient thumbnail file is written but never
deleted — the claim requires deletion regardless of delivery outcome. -/
theorem C9_counterexample :
    (Cli.processEvent cliEnvUploadFail "evt").fileWritten = true ∧
    (Cli.processEvent cliEnvUploadFail "evt").fileDeleted = false ∧
    (Cli.processEvent cliEnvUploadFail "evt").ok = false := by
  decide

/-- Claim C9 (amended): the transient thumbnail file is deleted immediately
after a SUCCESSFUL delivery (deletion errors being caught and only logged);
when the delivery attempt fails, the processor returns early, reports
failure, and leaves the file in place. -/
theorem C9_amended (env : Cli.CliEnv) (id : String) :
    (env.eventInfoOk = true → env.downloadOk = true → env.uploadOk = true →
      (Cli.processEvent env id).fileWritten = true ∧
      (Cli.processEvent env id).fileDeleted = env.unlinkOk ∧
      (Cli.processEvent env id).ok = true) ∧
    (env.eventInfoOk = true → env.downloadOk = true → env.uploadOk = false →
      (Cli.processEvent env id).fileWritten = true ∧
      (Cli.processEvent env id).fileDeleted = false ∧
      (Cli.processEvent env id).ok = false) := by
  constructor <;> intro h1 h2 h3 <;> simp [Cli.processEvent, h1, h2, h3]

/-- Claim C9, witness for the amended theorem. -/
theorem C9_witness :
    ((Cli.processEvent ⟨true, true, true, true⟩ "evt").fileWritten = true ∧
      (Cli.processEvent ⟨true, true, true, true⟩ "evt").fileDeleted = true ∧
      (Cli.processEvent ⟨true, true, true, true⟩ "evt").ok = true) ∧
    ((Cli.processEvent cliEnvUploadFail "evt").fileWritten = true ∧
      (Cli.processEvent cliEnvUploadFail "evt").fileDeleted = false ∧
      (Cli.processEvent cliEnvUploadFail "evt").ok = false) :=
  ⟨(C9_amended ⟨true, true, true, true⟩ "evt").1 rfl rfl rfl,
   (C9_amended cliEnvUploadFail "evt").2 rfl rfl rfl⟩

/-- Claim C2: over the supported payload shapes (nested shapes carry an
`alarm` object; the flat shape carries a truthy `eventType`, as enforced by
the corresponding validators), the transform-to-Discord-format step never
throws and the produced message always carries a populated, non-empty
`Event Type` field — falling back to `unknown` inside `extractEventType`
when nothing can be extracted. -/
theorem C2_normalization_total :
    (∀ (e : EventData) (a : Alarm) (now : String), e.alarm = some a →
      ∃ m, Bridge.transformToDiscordFormat e now = Except.ok m ∧
        msgEventTypeValue m = some (Bridge.extractEventType a) ∧
        Bridge.extractEventType a ≠ "") ∧
    (∀ (e : EventData) (s : String) (now : String),
      e.eventType = some s → s ≠ "" →
      ∃ m, BridgeFlat.transformToDiscordFormat e now = Except.ok m ∧
        msgEventTypeValue m = some s) := by
  constructor
  · intro e a now h
    simp only [Bridge.transformToDiscordFormat, h]
    refine ⟨_, rfl, ?_, Bridge.extractEventType_ne_empty a⟩
    simp [msgEventTypeValue, List.find?]
  · intro e s now h hs
    simp only [BridgeFlat.transformToDiscordFormat, h]
    refine ⟨_, rfl, ?_⟩
    cases hc : truthyStr e.cameraName <;>
      simp [msgEventTypeValue, List.find?, hc]

/-- Claim C2, witness: the spec's nested scenario payload and a flat
payload. -/
theorem C2_witness :
    (∃ m, Bridge.transformToDiscordFormat eventScenario "t0" =
        Except.ok m ∧
      msgEventTypeValue m = some (Bridge.extractEventType alarmScenario) ∧
      Bridge.extractEventType alarmScenario ≠ "") ∧
    (∃ m, BridgeFlat.transformToDiscordFormat eventFlat "t0" =
        Except.ok m ∧
      msgEventTypeValue m = some "motion") :=
  ⟨C2_normalization_total.1 eventScenario alarmScenario "t0" rfl,
   C2_normalization_total.2 eventFlat "motion" "t0" rfl (by decide)⟩

theorem Cli.regexTokenTab_ne_empty :
    ∀ (n : Nat) (cs : List Char) (t : String),
      Cli.regexTokenTab n cs = some t → t ≠ "" := by
  intro n
  induction n with
  | zero => intro cs t h; cases h
  | succ m ih =>
      intro cs t h
      unfold Cli.regexTokenTab at h
      cases ho : firstOccurFrom "TOKEN\t".data cs with
      | none => simp [ho] at h
      | some i =>
          simp only [ho] at h
          split at h
          · exact ih _ t h
          · rename_i hr
            injection h with h2
            subst h2
            intro hEq
            apply hr
            have hdata := congrArg String.data hEq
            simp only at hdata
            simp [hdata]

theorem Cli.loadExistingSession_ne_empty {file : Option String} {t : String}
    (h : Cli.loadExistingSession file = some t) : t ≠ "" := by
  cases file with
  | none => simp [Cli.loadExistingSession] at h
  | some s =>
      exact Cli.regexTokenTab_ne_empty (s.data.length + 1) s.data t
        (by simpa [Cli.loadExistingSession] using h)

theorem Cli.authenticate_loginCalls (env : Cli.Env) (st : Option String) :
    (Cli.authenticate env st).loginCalls = 1 := by
  cases hlo : env.login with
  | netErr => simp [Cli.authenticate, hlo]
  | resp cookiesOpt =>
      cases cookiesOpt with
      | none => cases htr : truthyStr st <;> simp [Cli.authenticate, hlo, htr]
      | some cookies =>
          cases he : Cli.extractTokenFromCookies cookies with
          | none =>
              cases htr : truthyStr st <;>
                simp [Cli.authenticate, hlo, he, htr]
          | some t =>
              cases htr : truthyStr (some t) <;>
                simp [Cli.authenticate, hlo, he, htr]

theorem Cli.authenticate_fail_nopersist (env : Cli.Env) (st : Option String)
    (h : (Cli.authenticate env st).ok = false) :
    (Cli.authenticate env st).cookieFile = env.cookieFile := by
  cases hlo : env.login with
  | netErr => simp [Cli.authenticate, hlo]
  | resp cookiesOpt =>
      cases cookiesOpt with
      | none =>
          cases htr : truthyStr st with
          | none => simp [Cli.authenticate, hlo, htr]
          | some t => simp [Cli.authenticate, hlo, htr] at h
      | some cookies =>
          cases he : Cli.extractTokenFromCookies cookies with
          | none =>
              cases htr : truthyStr st with
              | none => simp [Cli.authenticate, hlo, he, htr]
              | some t0 => simp [Cli.authenticate, hlo, he, htr] at h
          | some t =>
              cases htr : truthyStr (some t) with
              | none => simp [Cli.authenticate, hlo, he, htr]
              | some t1 => simp [Cli.authenticate, hlo, he, htr] at h

theorem Cli.authenticate_ok_persisted (env : Cli.Env) (st : Option String)
    (h : (Cli.authenticate env st).ok = true) :
    ∃ tok, (Cli.authenticate env st).sessionToken = some tok ∧
      (Cli.authenticate env st).cookieFile =
        some (Cli.mkCookieLine env.host env.nowSec tok) := by
  cases hlo : env.login with
  | netErr => simp [Cli.authenticate, hlo] at h
  | resp cookiesOpt =>
      cases cookiesOpt with
      | none =>
          cases htr : truthyStr st with
          | none => simp [Cli.authenticate, hlo, htr] at h
          | some t0 =>
              simp only [Cli.authenticate, hlo, htr]
              exact ⟨t0, rfl, rfl⟩
      | some cookies =>
          cases he : Cli.extractTokenFromCookies cookies with
          | none =>
              cases htr : truthyStr st with
              | none => simp [Cli.authenticate, hlo, he, htr] at h
              | some t0 =>
                  simp only [Cli.authenticate, hlo, he, htr]
                  exact ⟨t0, rfl, rfl⟩
          | some t =>
              cases htr : truthyStr (some t) with
              | none => simp [Cli.authenticate, hlo, he, htr] at h
              | some t1 =>
                  simp only [Cli.authenticate, hlo, he, htr]
                  exact ⟨t1, rfl, rfl⟩

theorem Cli.authenticate_fresh (env : Cli.Env) (st : Option String)
    (cookies : List String) (t : String)
    (hlo : env.login = Cli.LoginOutcome.resp (some cookies))
    (he : Cli.extractTokenFromCookies cookies = some t) (hne : t ≠ "") :
    Cli.authenticate env st =
      { ok := true, loginCalls := 1, sessionToken := some t,
        cookieFile := some (Cli.mkCookieLine env.host env.nowSec t) } := by
  have htr : truthyStr (some t) = some t := by simp [truthyStr, hne]
  simp only [Cli.authenticate, hlo, he, htr]

theorem Cli.authenticate_stale (env : Cli.Env) (st : Option String)
    (t0 : String) (htr : truthyStr st = some t0)
    (hno : env.login = Cli.LoginOutcome.resp none ∨
      ∃ cookies, env.login = Cli.LoginOutcome.resp (some cookies) ∧
        Cli.extractTokenFromCookies cookies = none) :
    Cli.authenticate env st =
      { ok := true, loginCalls := 1, sessionToken := some t0,
        cookieFile := some (Cli.mkCookieLine env.host env.nowSec t0) } := by
  rcases hno with hlo | ⟨cookies, hlo, he⟩
  · simp only [Cli.authenticate, hlo, htr]
  · simp only [Cli.authenticate, hlo, he, htr]

/-- Claim C3 (amended): `ensureAuthenticated` performs zero login calls when
a cached session exists and the probe succeeds (the cached session is used
as is); when the cached session is absent or the probe fails it performs
exactly one login call — never more than one per invocation.  When that
login response yields a (truthy) token, that token — the login's result — is
stored and persisted.  But the `!this.sessionToken` guard tests the instance
field: when the login response carries NO token and a cached token had been
loaded on the failed-probe path, the stale cached token is re-persisted with
a fresh expiry and success is reported; authentication fails (persisting
nothing) only when the login request itself throws or no truthy token is
available at all. -/
theorem C3_ensureAuthenticated (env : Cli.Env) :
    (∀ t, Cli.loadExistingSession env.cookieFile = some t →
      env.probeOk t = true →
      Cli.ensureAuthenticated env =
        { ok := true, loginCalls := 0, sessionToken := some t,
          cookieFile := env.cookieFile }) ∧
    (Cli.loadExistingSession env.cookieFile = none →
      (Cli.ensureAuthenticated env).loginCalls = 1) ∧
    (∀ t, Cli.loadExistingSession env.cookieFile = some t →
      env.probeOk t = false →
      (Cli.ensureAuthenticated env).loginCalls = 1) ∧
    (Cli.ensureAuthenticated env).loginCalls ≤ 1 ∧
    ((Cli.ensureAuthenticated env).ok = false →
      (Cli.ensureAuthenticated env).cookieFile = env.cookieFile) ∧
    ((Cli.ensureAuthenticated env).ok = true →
      (Cli.ensureAuthenticated env).loginCalls = 1 →
      ∃ tok, (Cli.ensureAuthenticated env).sessionToken = some tok ∧
        (Cli.ensureAuthenticated env).cookieFile =
          some (Cli.mkCookieLine env.host env.nowSec tok)) ∧
    (∀ cookies t, env.login = Cli.LoginOutcome.resp (some cookies) →
      Cli.extractTokenFromCookies cookies = some t → t ≠ "" →
      (Cli.ensureAuthenticated env).loginCalls = 1 →
      Cli.ensureAuthenticated env =
        { ok := true, loginCalls := 1, sessionToken := some t,
          cookieFile := some (Cli.mkCookieLine env.host env.nowSec t) }) ∧
    (∀ t0, Cli.loadExistingSession env.cookieFile = some t0 →
      env.probeOk t0 = false →
      (env.login = Cli.LoginOutcome.resp none ∨
        ∃ cookies, env.login = Cli.LoginOutcome.resp (some cookies) ∧
          Cli.extractTokenFromCookies cookies = none) →
      Cli.ensureAuthenticated env =
        { ok := true, loginCalls := 1, sessionToken := some t0,
          cookieFile := some (Cli.mkCookieLine env.host env.nowSec t0) }) := by
  cases hL : Cli.loadExistingSession env.cookieFile with
  | none =>
      have hauth : Cli.ensureAuthenticated env = Cli.authenticate env none := by
        simp only [Cli.ensureAuthenticated, hL]
      refine ⟨?_, ?_, ?_, ?_, ?_, ?_, ?_, ?_⟩
      · intro t ht _
        cases ht
      · intro _
        rw [hauth]
        exact Cli.authenticate_loginCalls env none
      · intro t ht _
        cases ht
      · rw [hauth, Cli.authenticate_loginCalls env none]
      · intro hok
        rw [hauth] at hok ⊢
        exact Cli.authenticate_fail_nopersist env none hok
      · intro hok _
        rw [hauth] at hok ⊢
        exact Cli.authenticate_ok_persisted env none hok
      · intro cookies t hlo he hne _
        rw [hauth]
        exact Cli.authenticate_fresh env none cookies t hlo he hne
      · intro t0 ht0 _ _
        cases ht0
  | some t0 =>
      have hne0 : t0 ≠ "" := Cli.loadExistingSession_ne_empty hL
      cases hp : env.probeOk t0 with
      | true =>
          have hres : Cli.ensureAuthenticated env =
              { ok := true, loginCalls := 0, sessionToken := some t0,
                cookieFile := env.cookieFile } := by
            simp only [Cli.ensureAuthenticated, hL, hp, if_true]
          refine ⟨?_, ?_, ?_, ?_, ?_, ?_, ?_, ?_⟩
          · intro t ht _
            injection ht with h2
            subst h2
            exact hres
          · intro hn
            cases hn
          · intro t ht hpf
            injection ht with h2
            subst h2
            rw [hpf] at hp
            cases hp
          · rw [hres]
            exact Nat.zero_le 1
          · intro hok
            rw [hres] at hok
            simp at hok
          · intro _ hcalls
            rw [hres] at hcalls
            simp at hcalls
          · intro cookies t _ _ _ hcalls
            rw [hres] at hcalls
            simp at hcalls
          · intro t ht hpf _
            injection ht with h2
            subst h2
            rw [hpf] at hp
            cases hp
      | false =>
          have hauth : Cli.ensureAuthenticated env =
              Cli.authenticate env (some t0) := by
            simp only [Cli.ensureAuthenticated, hL, hp, Bool.false_eq_true,
              if_false]
          refine ⟨?_, ?_, ?_, ?_, ?_, ?_, ?_, ?_⟩
          · intro t ht hpt
            injection ht with h2
            subst h2
            rw [hpt] at hp
            cases hp
          · intro hn
            cases hn
          · intro t ht _
            rw [hauth]
            exact Cli.authenticate_loginCalls env (some t0)
          · rw [hauth, Cli.authenticate_loginCalls env (some t0)]
          · intro hok
            rw [hauth] at hok ⊢
            exact Cli.authenticate_fail_nopersist env (some t0) hok
          · intro hok _
            rw [hauth] at hok ⊢
            exact Cli.authenticate_ok_persisted env (some t0) hok
          · intro cookies t hlo he hne _
            rw [hauth]
            exact Cli.authenticate_fresh env (some t0) cookies t hlo he hne
          · intro t1 ht1 _ hno
            injection ht1 with h2
            subst h2
            rw [hauth]
            exact Cli.authenticate_stale env (some t0) t0
              (by simp [truthyStr, hne0]) hno

/-- Claim C3, counterexample.  With a cached token `abc` whose probe fails
and a login response carrying no `TOKEN=` cookie, the program still reports
success after its single login call and re-persists the STALE cached token
with a fresh expiry — the login's (empty) result is not what is persisted,
so "exactly one login call is made and its result persisted" fails. -/
theorem C3_counterexample :
    Cli.extractTokenFromCookies ["foo=bar"] = none ∧
    Cli.ensureAuthenticated envStaleLogin =
      { ok := true, loginCalls := 1, sessionToken := some "abc",
        cookieFile := some (Cli.mkCookieLine "h" 5 "abc") } := by
  decide

/-- Claim C3, witness for the amended theorem: a valid cached session does
zero logins; an absent cache does one login and persists the fresh token; a
failed probe plus a token-less login response re-persists the stale cached
token. -/
theorem C3_witness :
    Cli.ensureAuthenticated envCachedValid =
      { ok := true, loginCalls := 0, sessionToken := some "abc",
        cookieFile := envCachedValid.cookieFile } ∧
    Cli.ensureAuthenticated envFreshLogin =
      { ok := true, loginCalls := 1, sessionToken := some "xyz",
        cookieFile := some (Cli.mkCookieLine envFreshLogin.host
          envFreshLogin.nowSec "xyz") } ∧
    Cli.ensureAuthenticated envStaleLogin =
      { ok := true, loginCalls := 1, sessionToken := some "abc",
        cookieFile := some (Cli.mkCookieLine envStaleLogin.host
          envStaleLogin.nowSec "abc") } :=
  ⟨(C3_ensureAuthenticated envCachedValid).1 "abc" (by decide) rfl,
   (C3_ensureAuthenticated envFreshLogin).2.2.2.2.2.2.1
     ["TOKEN=xyz; path=/; HttpOnly"] "xyz" rfl (by decide) (by decide)
     ((C3_ensureAuthenticated envFreshLogin).2.1 (by decide)),
   (C3_ensureAuthenticated envStaleLogin).2.2.2.2.2.2.2 "abc" (by decide)
     rfl (Or.inr ⟨["foo=bar"], rfl, by decide⟩)⟩

/-- Claim C4, counterexample.  In the standalone CLI event processor, a
failing thumbnail download aborts the dispatch: no Discord upload call is
made and the processor reports failure to its caller. -/
theorem C4_counterexample :
    (Cli.processEvent cliEnvDownloadFail "evt").uploadCalls = 0 ∧
    (Cli.processEvent cliEnvDownloadFail "evt").ok = false := by
  decide

/-- Claim C4 (amended): in the webhook service (`processAndSend`), a
thumbnail-fetch failure (missing API key, missing event id, network error or
non-200 response) never aborts the dispatch — the formatted message is
delivered exactly once, without an attachment, and the dispatch fails only
when the delivery itself fails.  In the standalone CLI event processor,
however, a thumbnail download failure aborts the dispatch before any
delivery. -/
theorem C4_amended :
    (∀ (e : EventData) (a : Alarm) (env : BridgeFR.FrEnv) (now : String),
      e.alarm = some a →
      (match BridgeFR.extractEventId a with
       | some eid => BridgeFR.fetchAnimatedThumbnail env (some eid)
       | none => none) = none →
      ∃ m, BridgeFR.transformToDiscordFormat e now = Except.ok m ∧
        (BridgeFR.processAndSend e env now).sendCalls = [(m, none)] ∧
        ((BridgeFR.processAndSend e env now).result = Except.ok () ↔
          env.webhookOk = true)) ∧
    (∀ (env : Cli.CliEnv) (id : String), env.eventInfoOk = true →
      env.downloadOk = false →
      (Cli.processEvent env id).uploadCalls = 0 ∧
      (Cli.processEvent env id).ok = false) := by
  constructor
  · intro e a env now h hth
    simp only [BridgeFR.processAndSend, h, hth,
      BridgeFR.transformToDiscordFormat]
    refine ⟨_, rfl, rfl, ?_⟩
    cases hw : env.webhookOk <;> simp [hw]
  · intro env id h1 h2
    simp [Cli.processEvent, h1, h2]

/-- Claim C4, witness for the amended theorem: a payload with an event id
whose thumbnail GET fails with a network error, plus a CLI run with a failed
download. -/
theorem C4_witness :
    (∃ m, BridgeFR.transformToDiscordFormat eventWithEventId "t0" =
        Except.ok m ∧
      (BridgeFR.processAndSend eventWithEventId frEnvThumbFail
          "t0").sendCalls = [(m, none)] ∧
      ((BridgeFR.processAndSend eventWithEventId frEnvThumbFail
          "t0").result = Except.ok () ↔ frEnvThumbFail.webhookOk = true)) ∧
    ((Cli.processEvent cliEnvDownloadFail "evt9").uploadCalls = 0 ∧
      (Cli.processEvent cliEnvDownloadFail "evt9").ok = false) :=
  ⟨C4_amended.1 eventWithEventId alarmWithEventId frEnvThumbFail "t0" rfl
    (by decide),
   C4_amended.2 cliEnvDownloadFail "evt9" rfl rfl⟩

/-- Claim C6: person-identity extraction returns the record derived from the
first trigger (in document order) whose key is exactly `face_known` or
`face_unknown` — its name is `trigger.group.name` when present (truthy),
else `trigger.value`, and it carries `eventId = trigger.eventId`; when no
such trigger exists (or there is no triggers array) the result is absent,
and the extraction is total. -/
theorem C6_extractPersonInfo (a : Alarm) :
    (BridgeFR.extractPersonInfo a).map (fun p => (p.name, p.eventId)) =
      (match a.triggers with
       | none => none
       | some ts => ts.find? isFaceTrigger).map
        (fun t => (specPersonName t, t.eventId)) := by
  have hname : ∀ t : Trigger, BridgeFR.personName t = specPersonName t := by
    intro t
    cases hg : t.group with
    | none => simp [BridgeFR.personName, specPersonName, hg, truthyStr]
    | some g => simp [BridgeFR.personName, specPersonName, hg]
  cases ht : a.triggers with
  | none => simp [BridgeFR.extractPersonInfo, ht]
  | some ts =>
      simp only [BridgeFR.extractPersonInfo, ht]
      clear ht
      induction ts with
      | nil => rfl
      | cons t rest ih =>
          by_cases hk : t.key = some "face_known" ∨
              t.key = some "face_unknown"
          · have hb : isFaceTrigger t = true := by
              simp only [isFaceTrigger, Bool.or_eq_true, beq_iff_eq]
              exact hk
            unfold BridgeFR.findFace
            rw [if_pos hk]
            simp [List.find?, hb, hname t]
          · have hb : isFaceTrigger t = false := by
              rcases not_or.mp hk with ⟨h1, h2⟩
              simp only [isFaceTrigger, Bool.or_eq_false_iff, beq_eq_false_iff_ne]
              exact ⟨h1, h2⟩
            unfold BridgeFR.findFace
            rw [if_neg hk]
            simpa [List.find?, hb] using ih

/-- Claim C7, counterexample.  A payload with no timestamp makes the
formatter embed the current time of the call: two calls at different times
produce different payloads. -/
theorem C7_counterexample :
    Bridge.transformToDiscordFormat eventNoTs "2025-01-01T00:00:00.000Z" ≠
      Bridge.transformToDiscordFormat eventNoTs "2025-01-02T00:00:00.000Z" := by
  intro h
  have h2 := congrArg msgTimestamp h
  revert h2
  decide

theorem formatTs_det {ts : TsVal} (t1 t2 : String)
    (h : tsProvided ts = true) : formatTs ts t1 = formatTs ts t2 := by
  cases ts with
  | num n => rfl
  | str s =>
      simp only [tsProvided, decide_eq_true_eq] at h
      simp [formatTs, h]
  | undef => cases h

/-- Claim C7 (amended): the message formatters are deterministic for every
event that carries a timestamp (a number, or a non-empty string); an event
without a timestamp has the formatting-time instant embedded, so only that
case depends on the time of the call. -/
theorem C7_formatter_deterministic (e : EventData) (t1 t2 : String)
    (h : tsProvided e.timestamp = true) :
    Bridge.transformToDiscordFormat e t1 =
        Bridge.transformToDiscordFormat e t2 ∧
      BridgeFR.transformToDiscordFormat e t1 =
        BridgeFR.transformToDiscordFormat e t2 := by
  constructor
  · cases ha : e.alarm with
    | none => simp [Bridge.transformToDiscordFormat, ha]
    | some a =>
        simp only [Bridge.transformToDiscordFormat, ha,
          formatTs_det t1 t2 h]
  · cases ha : e.alarm with
    | none => simp [BridgeFR.transformToDiscordFormat, ha]
    | some a =>
        simp only [BridgeFR.transformToDiscordFormat, ha,
          formatTs_det t1 t2 h]

/-- Claim C7, witness: the scenario payload (numeric timestamp) formats
identically at two different call times. -/
theorem C7_witness :
    Bridge.transformToDiscordFormat eventScenario "t1" =
        Bridge.transformToDiscordFormat eventScenario "t2" ∧
      BridgeFR.transformToDiscordFormat eventScenario "t1" =
        BridgeFR.transformToDiscordFormat eventScenario "t2" :=
  C7_formatter_deterministic eventScenario "t1" "t2" (by decide)

/-- Claim C10: `sanitizeData` removes the top-level `secret`, `password` and
`token` fields; a (truthy) `cameraName` becomes a string of at most 100
characters and a (truthy) `description` a string of at most 2000 characters;
every other top-level field — the nested `alarm` object included — passes
through unchanged.  In particular the forwarded object carries no `secret`
field. -/
theorem C10_sanitizeData (data : Validator.JObj) :
    Validator.jsLookup "secret" (Validator.sanitizeData data) = none ∧
    Validator.jsLookup "password" (Validator.sanitizeData data) = none ∧
    Validator.jsLookup "token" (Validator.sanitizeData data) = none ∧
    (∀ v, Validator.jsLookup "cameraName" data = some v →
      Validator.jsTruthy v = true →
      Validator.jsLookup "cameraName" (Validator.sanitizeData data) =
        some (.jstr (Validator.strTake (Validator.jsToString v) 100)) ∧
      (Validator.strTake (Validator.jsToString v) 100).length ≤ 100) ∧
    (∀ v, Validator.jsLookup "description" data = some v →
      Validator.jsTruthy v = true →
      Validator.jsLookup "description" (Validator.sanitizeData data) =
        some (.jstr (Validator.strTake (Validator.jsToString v) 2000)) ∧
      (Validator.strTake (Validator.jsToString v) 2000).length ≤ 2000) ∧
    (∀ k, k ∉ ["secret", "password", "token", "cameraName", "description"] →
      Validator.jsLookup k (Validator.sanitizeData data) =
        Validator.jsLookup k data) := by
  have hdel : ∀ k, k ≠ "secret" → k ≠ "password" → k ≠ "token" →
      Validator.jsLookup k
        (Validator.deleteKey "token" (Validator.deleteKey "password"
          (Validator.deleteKey "secret" data))) =
      Validator.jsLookup k data := by
    intro k h1 h2 h3
    rw [Validator.jsLookup_deleteKey_ne h3, Validator.jsLookup_deleteKey_ne h2,
      Validator.jsLookup_deleteKey_ne h1]
  refine ⟨?_, ?_, ?_, ?_, ?_, ?_⟩
  · unfold Validator.sanitizeData
    rw [Validator.truncDescription_lookup_ne (by decide),
      Validator.truncCamera_lookup_ne (by decide),
      Validator.jsLookup_deleteKey_ne (by decide),
      Validator.jsLookup_deleteKey_ne (by decide),
      Validator.jsLookup_deleteKey_self]
  · unfold Validator.sanitizeData
    rw [Validator.truncDescription_lookup_ne (by decide),
      Validator.truncCamera_lookup_ne (by decide),
      Validator.jsLookup_deleteKey_ne (by decide),
      Validator.jsLookup_deleteKey_self]
  · unfold Validator.sanitizeData
    rw [Validator.truncDescription_lookup_ne (by decide),
      Validator.truncCamera_lookup_ne (by decide),
      Validator.jsLookup_deleteKey_self]
  · intro v hv htr
    have hv3 : Validator.jsLookup "cameraName"
        (Validator.deleteKey "token" (Validator.deleteKey "password"
          (Validator.deleteKey "secret" data))) = some v := by
      rw [hdel "cameraName" (by decide) (by decide) (by decide)]
      exact hv
    refine ⟨?_, Validator.strTake_length_le _ 100⟩
    unfold Validator.sanitizeData
    rw [Validator.truncDescription_lookup_ne (by decide)]
    exact Validator.truncCamera_lookup_self hv3 htr
  · intro v hv htr
    have hv3 : Validator.jsLookup "description"
        (Validator.deleteKey "token" (Validator.deleteKey "password"
          (Validator.deleteKey "secret" data))) = some v := by
      rw [hdel "description" (by decide) (by decide) (by decide)]
      exact hv
    have hv4 : Validator.jsLookup "description"
        (Validator.truncCamera
          (Validator.deleteKey "token" (Validator.deleteKey "password"
            (Validator.deleteKey "secret" data)))) = some v := by
      rw [Validator.truncCamera_lookup_ne (by decide)]
      exact hv3
    refine ⟨?_, Validator.strTake_length_le _ 2000⟩
    unfold Validator.sanitizeData
    exact Validator.truncDescription_lookup_self hv4 htr
  · intro k hk
    simp only [List.mem_cons, List.not_mem_nil, or_false, not_or] at hk
    obtain ⟨h1, h2, h3, h4, h5⟩ := hk
    unfold Validator.sanitizeData
    rw [Validator.truncDescription_lookup_ne h5,
      Validator.truncCamera_lookup_ne h4]
    exact hdel k h1 h2 h3

/-- Claim C10, witness: on a sample payload the secret disappears, the
camera name survives truncation intact, and the nested alarm object is
untouched. -/
theorem C10_witness :
    Validator.jsLookup "secret" (Validator.sanitizeData sampleObj) = none ∧
    Validator.jsLookup "cameraName" (Validator.sanitizeData sampleObj) =
      some (.jstr "Front Door") ∧
    Validator.jsLookup "alarm" (Validator.sanitizeData sampleObj) =
      Validator.jsLookup "alarm" sampleObj :=
  ⟨(C10_sanitizeData sampleObj).1,
   ((C10_sanitizeData sampleObj).2.2.2.1 (.jstr "Front Door") rfl
      (by decide)).1,
   (C10_sanitizeData sampleObj).2.2.2.2.2 "alarm" (by decide)⟩
